import Mathlib

/-!
Shallow embedding of the "Meadow of Mind" rendering/simulation loop
(VisualizerCanvas `animate` tick, grass/weather shaders, App shop state)
over exact rational arithmetic.  Each numeric literal is taken verbatim
from the source; JavaScript floating point is modelled by `ℚ`, and
square-root comparisons `Math.sqrt e > r` are embedded as the equivalent
squared comparisons `e > r^2` (both sides nonnegative).
-/

namespace Meadow

/-! ### Constants from VisualizerCanvas -/

def GAME_OVER_RADIUS : ℚ := 8000

def WORLD_EXTENT : ℚ := 60000

def CHUNK_SIZE : ℚ := 2000

def TOTAL_CHUNKS_SIDE : ℚ := (WORLD_EXTENT * 2) / CHUNK_SIZE

def INSTANCES_PER_CHUNK : ℕ := 5000

/-! ### Player kinematics (animate, "2. MOVEMENT LOGIC")

Source:
  const joyX = state.handPosition.x;
  const turn = joyX * 2.5;
  const NEUTRAL_SIZE = 0.12;
  const SIZE_DEADZONE = 0.02;
  let speedZ = 0;
  const sizeDiff = state.handSize - NEUTRAL_SIZE;
  if (Math.abs(sizeDiff) > SIZE_DEADZONE) speedZ = -(sizeDiff * 25.0);
  playerVelocity.x = playerVelocity.x * 0.9 + turn * 0.1;
  playerVelocity.y = playerVelocity.y * 0.9 + speedZ * 0.1;
-/

def turnGain : ℚ := 5/2

def NEUTRAL_SIZE : ℚ := 12/100

def SIZE_DEADZONE : ℚ := 2/100

/-- Turn rate from the lateral hand signal. -/
def turnRate (handX : ℚ) : ℚ := handX * turnGain

/-- Depth speed from the hand-size signal, exactly as the source computes it:
zero inside the deadzone, otherwise `-(sizeDiff * 25)`. -/
def speedZ (handSize : ℚ) : ℚ :=
  if |handSize - NEUTRAL_SIZE| > SIZE_DEADZONE then -((handSize - NEUTRAL_SIZE) * 25) else 0

/-- One low-pass step of a velocity component:
`v * 0.9 + target * 0.1` (source lines for playerVelocity). -/
def lowPass (target v : ℚ) : ℚ := v * (9/10) + target * (1/10)

/-- Lateral velocity after `n` ticks of constant lateral input 1/2,
starting from rest (playerVelocity starts at (0,0)). -/
def latVel (n : ℕ) : ℚ := (lowPass (turnRate (1/2)))^[n] 0

/-- Spec-side notion for claim C2: the signed excess of the size signal
beyond the deadzone (the amount by which `handSize - NEUTRAL_SIZE`
exceeds the deadzone, keeping its sign). -/
def excessBeyondDeadzone (handSize : ℚ) : ℚ :=
  if handSize - NEUTRAL_SIZE > SIZE_DEADZONE then handSize - NEUTRAL_SIZE - SIZE_DEADZONE
  else if handSize - NEUTRAL_SIZE < -SIZE_DEADZONE then handSize - NEUTRAL_SIZE + SIZE_DEADZONE
  else 0

/-! ### Grass interactive push (GRASS_VERTEX_SHADER)

Source:
  float dist = distance(worldPos.xz, uPlayerPosition.xz);
  float interactRadius = 35.0;
  if (dist < interactRadius) {
      float pushFactor = (1.0 - dist / interactRadius);
      pushFactor = pow(pushFactor, 2.0) * 12.0 * heightPercent;
      ... displacement of magnitude pushFactor ...
  }
The push magnitude as a function of the player distance `d` and the
blade height fraction `hp`. Outside the branch no push is applied.
-/

def interactRadius : ℚ := 35

def pushMagnitude (d hp : ℚ) : ℚ :=
  if d < interactRadius then (1 - d / interactRadius)^2 * 12 * hp else 0

/-! ### Theorems -/

/-- Claim C2 counterexample: in the code the depth speed outside the deadzone is
`-(sizeDiff * 25)`, which is NOT proportional to the signed excess beyond the
deadzone: no single constant `k` satisfies `speedZ s = k * excessBeyondDeadzone s`
at both `s = 0.16` and `s = 0.20`. -/
theorem speedZ_not_proportional_to_excess :
    ¬ ∃ k : ℚ, ∀ s : ℚ, speedZ s = k * excessBeyondDeadzone s := by
  rintro ⟨k, hk⟩
  have h1 := hk (16/100)
  have h2 := hk (20/100)
  rw [speedZ, excessBeyondDeadzone] at h1 h2
  norm_num [NEUTRAL_SIZE, SIZE_DEADZONE, abs_of_pos] at h1 h2
  linarith

/-- Claim C2 (amended): depth speed is 0 whenever `|handSize - 0.12| ≤ 0.02`;
otherwise it equals `-25 * (handSize - 0.12)`, i.e. it is proportional to the
full signed difference from the neutral size (so the response is discontinuous
at the deadzone boundary), and a larger-than-neutral hand size gives a strictly
negative depth speed, which is forward motion (negative z). -/
theorem speedZ_deadzone_and_full_difference (s : ℚ) :
    (|s - NEUTRAL_SIZE| ≤ SIZE_DEADZONE → speedZ s = 0) ∧
    (|s - NEUTRAL_SIZE| > SIZE_DEADZONE → speedZ s = -25 * (s - NEUTRAL_SIZE)) ∧
    (s - NEUTRAL_SIZE > SIZE_DEADZONE → speedZ s < 0) := by
  refine ⟨fun h => ?_, fun h => ?_, fun h => ?_⟩
  · rw [speedZ, if_neg (not_lt.mpr h)]
  · rw [speedZ, if_pos h]; ring
  · have habs : |s - NEUTRAL_SIZE| > SIZE_DEADZONE := by
      calc SIZE_DEADZONE < s - NEUTRAL_SIZE := h
        _ ≤ |s - NEUTRAL_SIZE| := le_abs_self _
    rw [speedZ, if_pos habs]
    have hpos : 0 < s - NEUTRAL_SIZE := by
      have : (0:ℚ) < SIZE_DEADZONE := by norm_num [SIZE_DEADZONE]
      linarith
    nlinarith

/-- Witness for the amended C2 theorem at concrete inputs. -/
theorem speedZ_deadzone_and_full_difference_witness :
    speedZ (12/100) = 0 ∧ speedZ (16/100) = -25 * ((16/100 : ℚ) - NEUTRAL_SIZE) ∧
      speedZ (16/100) < 0 := by
  have h0 := speedZ_deadzone_and_full_difference (12/100)
  have h1 := speedZ_deadzone_and_full_difference (16/100)
  refine ⟨h0.1 (by norm_num [NEUTRAL_SIZE, SIZE_DEADZONE]),
          h1.2.1 (by norm_num [NEUTRAL_SIZE, SIZE_DEADZONE, lt_abs]),
          h1.2.2 (by norm_num [NEUTRAL_SIZE, SIZE_DEADZONE])⟩

/-! ### Weather particle shader (WEATHER_VERTEX_SHADER)

Source:
  float fallOffset = uTime * uSpeed * (0.8 + 0.4 * aRandom);
  float height = 200.0;
  pos.y = 100.0 - mod((100.0 - pos.y) + fallOffset, height);
  ...
  float normY = (pos.y + 100.0) / 200.0;
  vAlpha = smoothstep(0.0, 0.15, normY) * smoothstep(1.0, 0.85, normY);
-/

/-- GLSL `mod(x, y) = x - y * floor(x / y)`. -/
def glslMod (x y : ℚ) : ℚ := x - y * ⌊x / y⌋

/-- GLSL `clamp(x, lo, hi)`. -/
def clampQ (lo hi x : ℚ) : ℚ := min hi (max lo x)

/-- GLSL `smoothstep(e0, e1, x)`:
`t = clamp((x - e0)/(e1 - e0), 0, 1); t*t*(3 - 2*t)`. -/
def smoothstepQ (e0 e1 x : ℚ) : ℚ :=
  (clampQ 0 1 ((x - e0) / (e1 - e0))) * (clampQ 0 1 ((x - e0) / (e1 - e0))) *
    (3 - 2 * (clampQ 0 1 ((x - e0) / (e1 - e0))))

def weatherTopY : ℚ := 100

def weatherBoxHeight : ℚ := 200

/-- Per-tick fall offset `uTime * uSpeed * (0.8 + 0.4 * aRandom)`. -/
def fallOffset (t speed rand : ℚ) : ℚ := t * speed * (8/10 + 4/10 * rand)

/-- The vertical position the weather vertex shader computes. -/
def weatherY (initY t speed rand : ℚ) : ℚ :=
  weatherTopY - glslMod ((weatherTopY - initY) + fallOffset t speed rand) weatherBoxHeight

/-- Normalized height inside the weather volume, `(pos.y + 100) / 200`. -/
def weatherNormY (y : ℚ) : ℚ := (y + 100) / 200

/-- The per-particle alpha computed by the weather vertex shader. -/
def weatherAlpha (y : ℚ) : ℚ :=
  smoothstepQ 0 (15/100) (weatherNormY y) * smoothstepQ 1 (85/100) (weatherNormY y)

lemma glslMod_nonneg_lt (x : ℚ) : 0 ≤ glslMod x 200 ∧ glslMod x 200 < 200 := by
  have hrw : glslMod x 200 = 200 * Int.fract (x / 200) := by
    rw [glslMod, Int.fract]
    field_simp
  have h0 : (0:ℚ) ≤ Int.fract (x / 200) := Int.fract_nonneg _
  have h1 : Int.fract (x / 200) < 1 := Int.fract_lt_one _
  constructor <;> nlinarith [h0, h1]

/-- Claim C5: for every weather particle (seed `rand`), every initial vertical
position `initY` and every time/speed, the shader's vertical position lies in
the band [-100, 100]; the alpha is 0 at the exact bottom edge (-100) and top
edge (100) of the band and 1 at mid-band (0). -/
theorem weatherY_in_band_and_alpha_edges :
    (∀ initY t speed rand : ℚ,
      -100 ≤ weatherY initY t speed rand ∧ weatherY initY t speed rand ≤ 100) ∧
    weatherAlpha (-100) = 0 ∧ weatherAlpha 100 = 0 ∧ weatherAlpha 0 = 1 := by
  refine ⟨fun initY t speed rand => ?_, ?_, ?_, ?_⟩
  · have h := glslMod_nonneg_lt ((weatherTopY - initY) + fallOffset t speed rand)
    simp only [weatherY, weatherTopY, weatherBoxHeight] at h ⊢
    constructor <;> linarith [h.1, h.2]
  · norm_num [weatherAlpha, smoothstepQ, clampQ, weatherNormY]
  · norm_num [weatherAlpha, smoothstepQ, clampQ, weatherNormY]
  · norm_num [weatherAlpha, smoothstepQ, clampQ, weatherNormY]

/-- Claim C4: for distance below the interaction radius the grass push magnitude
is exactly `(1 - d/radius)^2 * 12 * heightPercent`; at the radius it is 0 and the
branch formula also evaluates to 0 there (continuity at the boundary, no hard
cutoff); and on [0, radius] the magnitude strictly decreases as the distance
increases, for any positive height fraction. -/
theorem pushMagnitude_falloff (d hp : ℚ) :
    (d < interactRadius → pushMagnitude d hp = (1 - d / interactRadius)^2 * 12 * hp) ∧
    (pushMagnitude interactRadius hp = 0 ∧
      (1 - interactRadius / interactRadius)^2 * 12 * hp = 0) ∧
    (∀ d1 d2 : ℚ, 0 ≤ d1 → d1 < d2 → d2 ≤ interactRadius → 0 < hp →
      pushMagnitude d2 hp < pushMagnitude d1 hp) := by
  refine ⟨fun h => ?_, ⟨?_, ?_⟩, fun d1 d2 h0 h12 h2 hhp => ?_⟩
  · rw [pushMagnitude, if_pos h]
  · rw [pushMagnitude, if_neg (lt_irrefl _)]
  · norm_num [interactRadius]
  · have hrad : interactRadius = 35 := rfl
    rw [hrad] at h2
    have hd1 : pushMagnitude d1 hp = (1 - d1 / 35)^2 * 12 * hp := by
      rw [pushMagnitude, if_pos (by rw [hrad]; linarith), hrad]
    have ha : 0 < 1 - d1 / 35 := by linarith
    by_cases hd2lt : d2 < 35
    · have hd2 : pushMagnitude d2 hp = (1 - d2 / 35)^2 * 12 * hp := by
        rw [pushMagnitude, if_pos (by rw [hrad]; exact hd2lt), hrad]
      have hb : 0 ≤ 1 - d2 / 35 := by linarith
      have hba : 1 - d2 / 35 < 1 - d1 / 35 := by linarith
      have hsq : (1 - d2 / 35)^2 < (1 - d1 / 35)^2 := by nlinarith [hb, hba]
      rw [hd1, hd2]
      nlinarith [hsq, hhp]
    · have hd2 : pushMagnitude d2 hp = 0 := by
        rw [pushMagnitude, if_neg (by rw [hrad]; exact hd2lt)]
      rw [hd1, hd2]
      have hsqpos : 0 < (1 - d1 / 35)^2 := pow_pos ha 2
      positivity

/-- Witness for the C4 theorem at concrete inputs: at distance 17.5 (half the
radius) and full blade height the branch formula applies, the magnitude at the
radius is 0, and the magnitude at distance 20 is below the one at distance 10. -/
theorem pushMagnitude_falloff_witness :
    pushMagnitude (35/2) 1 = (1 - (35/2) / interactRadius)^2 * 12 * 1 ∧
      pushMagnitude interactRadius 1 = 0 ∧
      pushMagnitude 20 1 < pushMagnitude 10 1 := by
  have h := pushMagnitude_falloff (35/2) (1:ℚ)
  refine ⟨h.1 (by norm_num [interactRadius]), h.2.1.1, ?_⟩
  exact h.2.2 10 20 (by norm_num) (by norm_num) (by norm_num [interactRadius]) (by norm_num)

lemma latVel_succ (n : ℕ) : latVel (n+1) = lowPass (turnRate (1/2)) (latVel n) := by
  rw [latVel, latVel, Function.iterate_succ_apply']

lemma latVel_gap (n : ℕ) : (1/2) * turnGain - latVel n = ((1/2) * turnGain) * (9/10)^n := by
  induction n with
  | zero => simp [latVel]
  | succ n ih =>
      rw [latVel_succ, lowPass, turnRate, pow_succ, turnGain] at *
      linear_combination (9/10) * ih

/-- Claim C7: under constant lateral input 1/2 starting from rest, the lateral
velocity is strictly increasing tick over tick, never reaches `(1/2) * turnGain`,
and its gap to `(1/2) * turnGain` decays geometrically as `(9/10)^n`, so the
velocity asymptotically approaches `(1/2) * turnGain = 1.25` without ever
exceeding it. -/
theorem latVel_monotone_approaches (n : ℕ) :
    latVel n < latVel (n+1) ∧ latVel n < (1/2) * turnGain ∧
      (1/2) * turnGain - latVel n = ((1/2) * turnGain) * (9/10)^n := by
  have k1 := latVel_gap n
  have k2 := latVel_gap (n+1)
  have hp : (0:ℚ) < (9/10)^n := pow_pos (by norm_num) n
  rw [pow_succ] at k2
  rw [turnGain] at k1 k2 ⊢
  refine ⟨by linarith, by linarith, k1⟩

/-! ### Environmental parameter blender (animate, target selection + smoothing)

Source targets (per emotion branch of `animate`) and per-tick updates:
  materialRef.uniforms.uBaseColor.value.lerp(targetBase, 0.05);
  materialRef.uniforms.uTipColor.value.lerp(targetTip, 0.05);
  sunLight.color.lerp(sunColor, 0.05);
  currentWeather.color.lerp(targetWeatherColor, 0.05);
  currentWeather.speed += (targetWeatherSpeed - currentWeather.speed) * 0.05;
  currentWeather.sway  += (targetWeatherSway  - currentWeather.sway)  * 0.05;
  currentWeather.size  += (targetWeatherSize  - currentWeather.size)  * 0.05;
  sunHaloMat.uniforms.uColor.value.lerp(targetHaloColor, 0.05);
  uOpacity.value = curOp + (targetHaloOpacity - curOp) * 0.02;
-/

inductive Emotion where
  | HAPPY
  | CALM
  | SAD
deriving DecidableEq

/-- A three.js color: float channels in the unit range (hex / 255 per channel). -/
structure Color3 where
  r : ℚ
  g : ℚ
  b : ℚ
deriving DecidableEq

/-- three.js `Color.lerp(color, alpha)`: each channel moves by
`(target - current) * alpha`. -/
def Color3.lerp (c target : Color3) (alpha : ℚ) : Color3 :=
  ⟨c.r + (target.r - c.r) * alpha,
   c.g + (target.g - c.g) * alpha,
   c.b + (target.b - c.b) * alpha⟩

/-- Color from 8-bit channels, as three.js `setHex` produces. -/
def colorHex (r g b : ℕ) : Color3 := ⟨(r : ℚ)/255, (g : ℚ)/255, (b : ℚ)/255⟩

/-- The live (or target) environmental parameters the tick smooths. -/
structure EnvState where
  baseColor : Color3
  tipColor : Color3
  sunColor : Color3
  weatherColor : Color3
  haloColor : Color3
  weatherSpeed : ℚ
  weatherSway : ℚ
  weatherSize : ℚ
  haloOpacity : ℚ
deriving DecidableEq

/-- The total target lookup keyed by the emotion enum (the three branches of
the `if (state.emotion === ...)` chain; every branch assigns all nine targets;
`CONFIG.calmColor = 0xE6C229`, `CONFIG.happyColor = 0xD4DE8D`,
`CONFIG.sadColor = 0xBBDDFF`). -/
def emotionTargets : Emotion → EnvState
  | Emotion.CALM =>
      { baseColor := colorHex 0x1a 0x2a 0x0a
        tipColor := colorHex 0xE6 0xC2 0x29
        sunColor := colorHex 0xff 0xaa 0x33
        weatherColor := colorHex 0xE6 0xC2 0x29
        haloColor := colorHex 0xff 0xaa 0x00
        weatherSpeed := 6
        weatherSway := 2
        weatherSize := 5
        haloOpacity := 4/10 }
  | Emotion.HAPPY =>
      { baseColor := colorHex 0x1a 0x20 0x10
        tipColor := colorHex 0xD4 0xDE 0x8D
        sunColor := colorHex 0xff 0xff 0xdd
        weatherColor := colorHex 0xFF 0xFF 0xCC
        haloColor := colorHex 0xff 0xfe 0xe0
        weatherSpeed := 8
        weatherSway := 3/2
        weatherSize := 4
        haloOpacity := 6/10 }
  | Emotion.SAD =>
      { baseColor := colorHex 0x22 0x33 0x44
        tipColor := colorHex 0xBB 0xDD 0xFF
        sunColor := colorHex 0xFF 0xEE 0xCC
        weatherColor := colorHex 0xFF 0xFF 0xFF
        haloColor := colorHex 0xFF 0xDD 0x88
        weatherSpeed := 20
        weatherSway := 8/10
        weatherSize := 5/2
        haloOpacity := 5/10 }

/-- One tick of the environmental blender, exactly the source's updates:
every parameter lerps toward its target at rate 0.05 except the halo opacity,
which uses rate 0.02. -/
def envTick (cur target : EnvState) : EnvState :=
  { baseColor := cur.baseColor.lerp target.baseColor (5/100)
    tipColor := cur.tipColor.lerp target.tipColor (5/100)
    sunColor := cur.sunColor.lerp target.sunColor (5/100)
    weatherColor := cur.weatherColor.lerp target.weatherColor (5/100)
    haloColor := cur.haloColor.lerp target.haloColor (5/100)
    weatherSpeed := cur.weatherSpeed + (target.weatherSpeed - cur.weatherSpeed) * (5/100)
    weatherSway := cur.weatherSway + (target.weatherSway - cur.weatherSway) * (5/100)
    weatherSize := cur.weatherSize + (target.weatherSize - cur.weatherSize) * (5/100)
    haloOpacity := cur.haloOpacity + (target.haloOpacity - cur.haloOpacity) * (2/100) }

/-- The spec's exponential smoothing primitive `current += (target - current) * rate`. -/
def stepsToward (rate c t : ℚ) : ℚ := c + (t - c) * rate

/-- Exponential smoothing per color channel at a given rate. -/
def colorSteps (rate : ℚ) (c t : Color3) : Color3 :=
  ⟨stepsToward rate c.r t.r, stepsToward rate c.g t.g, stepsToward rate c.b t.b⟩

/-- `n` smoothing steps of a scalar toward a fixed target. -/
def scalarIter (rate t : ℚ) : ℕ → ℚ → ℚ
  | 0, c => c
  | n+1, c => stepsToward rate (scalarIter rate t n c) t

/-- `n` smoothing steps of a color toward a fixed target, per channel. -/
def colorIter (rate : ℚ) (t : Color3) (n : ℕ) (c : Color3) : Color3 :=
  ⟨scalarIter rate t.r n c.r, scalarIter rate t.g n c.g, scalarIter rate t.b n c.b⟩

/-- `n` blender ticks with the target held fixed. -/
def envIter (target : EnvState) : ℕ → EnvState → EnvState
  | 0, cur => cur
  | n+1, cur => envTick (envIter target n cur) target

lemma stepsToward_gap (r c t : ℚ) (_h0 : 0 ≤ r) (h1 : r ≤ 1) :
    |t - stepsToward r c t| = (1 - r) * |t - c| := by
  rw [stepsToward, show t - (c + (t - c) * r) = (1 - r) * (t - c) by ring, abs_mul,
    abs_of_nonneg (by linarith : (0:ℚ) ≤ 1 - r)]

lemma stepsToward_between (r c t : ℚ) (h0 : 0 ≤ r) (h1 : r ≤ 1) :
    min c t ≤ stepsToward r c t ∧ stepsToward r c t ≤ max c t := by
  rcases le_total c t with h | h
  · rw [min_eq_left h, max_eq_right h, stepsToward]
    constructor <;> nlinarith
  · rw [min_eq_right h, max_eq_left h, stepsToward]
    constructor <;> nlinarith

lemma scalarIter_gap (r c t : ℚ) (h0 : 0 ≤ r) (h1 : r ≤ 1) (m : ℕ) :
    |t - scalarIter r t m c| = (1 - r)^m * |t - c| := by
  induction m with
  | zero => simp [scalarIter]
  | succ m ih =>
      rw [scalarIter, stepsToward_gap r _ t h0 h1, ih, pow_succ]
      ring

/-- Claim C6: (i) one blender tick updates every live parameter by exponential
smoothing `current += (target - current) * rate` toward its target, with rate
0.05 for everything except halo opacity, which uses 0.02; (ii) one smoothing
step at either rate never overshoots (it stays between the current value and
the target); (iii) holding the target fixed, the distance of any smoothed
scalar to its target after `m` ticks is exactly `(1 - rate)^m` times the
initial distance, hence weakly monotonically decreasing each tick; and (iv)
`n` blender ticks act componentwise as those scalar smoothing iterations, so
every live parameter converges monotonically toward its target without
overshoot. -/
theorem envTick_exponential_smoothing (cur target : EnvState) (n : ℕ) :
    (envTick cur target =
      { baseColor := colorSteps (5/100) cur.baseColor target.baseColor
        tipColor := colorSteps (5/100) cur.tipColor target.tipColor
        sunColor := colorSteps (5/100) cur.sunColor target.sunColor
        weatherColor := colorSteps (5/100) cur.weatherColor target.weatherColor
        haloColor := colorSteps (5/100) cur.haloColor target.haloColor
        weatherSpeed := stepsToward (5/100) cur.weatherSpeed target.weatherSpeed
        weatherSway := stepsToward (5/100) cur.weatherSway target.weatherSway
        weatherSize := stepsToward (5/100) cur.weatherSize target.weatherSize
        haloOpacity := stepsToward (2/100) cur.haloOpacity target.haloOpacity }) ∧
    (∀ c t : ℚ,
      (min c t ≤ stepsToward (5/100) c t ∧ stepsToward (5/100) c t ≤ max c t) ∧
      (min c t ≤ stepsToward (2/100) c t ∧ stepsToward (2/100) c t ≤ max c t)) ∧
    (∀ (c t : ℚ) (m : ℕ),
      |t - scalarIter (5/100) t m c| = (19/20)^m * |t - c| ∧
      |t - scalarIter (2/100) t m c| = (49/50)^m * |t - c| ∧
      |t - scalarIter (5/100) t (m+1) c| ≤ |t - scalarIter (5/100) t m c| ∧
      |t - scalarIter (2/100) t (m+1) c| ≤ |t - scalarIter (2/100) t m c|) ∧
    (envIter target n cur =
      { baseColor := colorIter (5/100) target.baseColor n cur.baseColor
        tipColor := colorIter (5/100) target.tipColor n cur.tipColor
        sunColor := colorIter (5/100) target.sunColor n cur.sunColor
        weatherColor := colorIter (5/100) target.weatherColor n cur.weatherColor
        haloColor := colorIter (5/100) target.haloColor n cur.haloColor
        weatherSpeed := scalarIter (5/100) target.weatherSpeed n cur.weatherSpeed
        weatherSway := scalarIter (5/100) target.weatherSway n cur.weatherSway
        weatherSize := scalarIter (5/100) target.weatherSize n cur.weatherSize
        haloOpacity := scalarIter (2/100) target.haloOpacity n cur.haloOpacity }) := by
  refine ⟨rfl, fun c t => ⟨stepsToward_between _ c t (by norm_num) (by norm_num),
      stepsToward_between _ c t (by norm_num) (by norm_num)⟩, fun c t m => ?_, ?_⟩
  · have g5 := scalarIter_gap (5/100) c t (by norm_num) (by norm_num)
    have g2 := scalarIter_gap (2/100) c t (by norm_num) (by norm_num)
    have h5 : ((1:ℚ) - 5/100) = 19/20 := by norm_num
    have h2 : ((1:ℚ) - 2/100) = 49/50 := by norm_num
    rw [h5] at g5
    rw [h2] at g2
    have habs : (0:ℚ) ≤ |t - c| := abs_nonneg _
    refine ⟨g5 m, g2 m, ?_, ?_⟩
    · rw [g5 m, g5 (m+1), pow_succ]
      nlinarith [pow_pos (by norm_num : (0:ℚ) < 19/20) m]
    · rw [g2 m, g2 (m+1), pow_succ]
      nlinarith [pow_pos (by norm_num : (0:ℚ) < 49/50) m]
  · induction n with
    | zero => rfl
    | succ n ih => rw [envIter, ih]; rfl

/-! ### Shard pickup/respawn ring (animate, shard loop)

Source, per shard per tick (i the shard index, descending loop order):
  shard.rotation.y += 0.02; shard.rotation.x += 0.01;
  shard.position.y = 5 + Math.sin(timeRef.current * 2 + i) * 1.5;
  const dx = shard.position.x - playerPosition.current.x;
  const dz = shard.position.z - playerPosition.current.z;
  const dist = Math.sqrt(dx*dx + dz*dz);
  if (dist < 10) {
      shard.visible = false;
      shard.position.set(player.x + (Math.random()-0.5)*2000, 5, player.z + (Math.random()-0.5)*2000);
      shard.visible = true;
      onCollectShard();
  } else if (dist > 8000) {
      shard.position.set(player.x + (Math.random()-0.5)*4000, 5, player.z + (Math.random()-0.5)*4000);
  }
The pool is the fixed array built at init (150 meshes); the loop never adds or
removes shards.  `Math.sin` is transcendental, so the bob height assigned to
`position.y` before the distance check is passed in as the parameter `bob`;
it does not enter the planar distance.  `Math.random()` draws are passed in
as the parameters `r1 r2 ∈ [0,1)`.
-/

/-- A shard: position and visibility flag. -/
structure Shard where
  x : ℚ
  y : ℚ
  z : ℚ
  visible : Bool
deriving DecidableEq

/-- Squared planar distance of a shard to the player (the code compares
`Math.sqrt` of this against 10 and 8000; both sides nonnegative, so the
comparisons are embedded squared). -/
def shardDistSq (px pz : ℚ) (s : Shard) : ℚ := (s.x - px)^2 + (s.z - pz)^2

/-- One tick of one shard: bob assignment, then the collect / despawn-relocate
branches.  Returns the updated shard and the number of `onCollectShard` calls
made for it this tick. -/
def shardStep (px pz bob r1 r2 : ℚ) (s : Shard) : Shard × ℕ :=
  if shardDistSq px pz { s with y := bob } < 10^2 then
    ({ x := px + (r1 - 1/2) * 2000, y := 5, z := pz + (r2 - 1/2) * 2000, visible := true }, 1)
  else if shardDistSq px pz { s with y := bob } > 8000^2 then
    ({ x := px + (r1 - 1/2) * 4000, y := 5, z := pz + (r2 - 1/2) * 4000,
       visible := ({ s with y := bob } : Shard).visible }, 0)
  else ({ s with y := bob }, 0)

/-- The whole pool for one tick: each shard is processed once with its own
random draws and bob height; the pool is a fixed array that is never grown or
shrunk. -/
def shardPoolTick (px pz : ℚ) (bobs r1s r2s : ℕ → ℚ) (pool : List Shard) : List Shard × ℕ :=
  let stepped := (List.range pool.length).zip pool |>.map
    (fun p => shardStep px pz (bobs p.1) (r1s p.1) (r2s p.1) p.2)
  (stepped.map Prod.fst, (stepped.map Prod.snd).sum)

/-- Claim C3: per shard per tick, a shard whose planar distance to the player
is below the collect radius 10 signals exactly one pickup, is teleported into
the ±1000 relocation band around the player and stays visible; a shard whose
distance exceeds the despawn radius 8000 is relocated into the ±2000 band with
no pickup signal; a shard in between is neither relocated nor signalled; and a
pool tick preserves the pool size. -/
theorem shardStep_collect_despawn (px pz bob r1 r2 : ℚ) (s : Shard)
    (hr1 : 0 ≤ r1) (hr1' : r1 < 1) (hr2 : 0 ≤ r2) (hr2' : r2 < 1) :
    (shardDistSq px pz { s with y := bob } < 10^2 →
      (shardStep px pz bob r1 r2 s).2 = 1 ∧
      |(shardStep px pz bob r1 r2 s).1.x - px| ≤ 1000 ∧
      |(shardStep px pz bob r1 r2 s).1.z - pz| ≤ 1000 ∧
      (shardStep px pz bob r1 r2 s).1.visible = true) ∧
    (shardDistSq px pz { s with y := bob } > 8000^2 →
      (shardStep px pz bob r1 r2 s).2 = 0 ∧
      |(shardStep px pz bob r1 r2 s).1.x - px| ≤ 2000 ∧
      |(shardStep px pz bob r1 r2 s).1.z - pz| ≤ 2000) ∧
    (∀ pool bobs r1s r2s,
      (shardPoolTick px pz bobs r1s r2s pool).1.length = pool.length) := by
  refine ⟨fun h => ?_, fun h => ?_, fun pool bobs r1s r2s => ?_⟩
  · rw [shardStep, if_pos h]
    refine ⟨rfl, ?_, ?_, rfl⟩ <;>
      · rw [abs_le]; constructor <;> nlinarith
  · have hnotlt : ¬ shardDistSq px pz { s with y := bob } < 10^2 := by
      push_neg
      nlinarith [h]
    rw [shardStep, if_neg hnotlt, if_pos h]
    refine ⟨rfl, ?_, ?_⟩ <;>
      · rw [abs_le]; constructor <;> nlinarith
  · rw [shardPoolTick]
    simp [List.length_zip]

/-- Witness for the C3 theorem: a shard at planar distance 5 from the origin is
collected (one pickup, relocated within ±1000, visible); a shard at distance
9000 is silently relocated within ±2000; a two-shard pool stays size two. -/
theorem shardStep_collect_despawn_witness :
    ((0:ℚ) ≤ 0 ∧ (0:ℚ) < 1) ∧
    (shardDistSq 0 0 { x := 5, y := 7, z := 0, visible := true } < 10^2 ∧
      (shardStep 0 0 7 0 0 ⟨5, 2, 0, true⟩).2 = 1 ∧
      (shardStep 0 0 7 0 0 ⟨5, 2, 0, true⟩).1.visible = true) ∧
    (shardDistSq 0 0 { x := 9000, y := 7, z := 0, visible := true } > 8000^2 ∧
      (shardStep 0 0 7 0 0 ⟨9000, 2, 0, true⟩).2 = 0) ∧
    (shardPoolTick 0 0 (fun _ => 7) (fun _ => 0) (fun _ => 0)
      [⟨5, 2, 0, true⟩, ⟨9000, 2, 0, true⟩]).1.length = 2 := by
  have h1 := shardStep_collect_despawn 0 0 7 0 0 ⟨5, 2, 0, true⟩
    (le_refl 0) (by norm_num) (le_refl 0) (by norm_num)
  have h2 := shardStep_collect_despawn 0 0 7 0 0 ⟨9000, 2, 0, true⟩
    (le_refl 0) (by norm_num) (le_refl 0) (by norm_num)
  have d1 : shardDistSq 0 0 { x := 5, y := 7, z := 0, visible := true } < 10^2 := by
    norm_num [shardDistSq]
  have d2 : shardDistSq 0 0 { x := 9000, y := 7, z := 0, visible := true } > 8000^2 := by
    norm_num [shardDistSq]
  refine ⟨⟨le_refl 0, by norm_num⟩, ⟨d1, (h1.1 d1).1, (h1.1 d1).2.2.2⟩,
    ⟨d2, (h2.2.1 d2).1⟩, ?_⟩
  have := (h2.2.2) [⟨5, 2, 0, true⟩, ⟨9000, 2, 0, true⟩]
    (fun _ => 7) (fun _ => 0) (fun _ => 0)
  simpa using this

/-! ### The simulation tick (animate)

One `animate` call while unpaused, restricted to the simulation state the
claims are about.  The code advances `timeRef` by 0.01, then checks
  Math.sqrt(player.x**2 + player.z**2) > GAME_OVER_RADIUS
and on violation calls `onGameOver()` once and returns immediately (no
movement, shard, or environment updates run).  Otherwise it runs the movement
logic (low-pass velocities integrated at `moveSpeed = 0.6`), the shard loop
against the updated player position, and the environment blender.  `sin`-based
bob heights and `Math.random()` draws are inputs, as above.
-/

/-- The per-tick external signal snapshot the tick reads. -/
structure TickInput where
  handX : ℚ
  handSize : ℚ
  soundAmplitude : ℚ
  emotion : Emotion

/-- Simulation state threaded through ticks. -/
structure SimState where
  px : ℚ
  pz : ℚ
  vx : ℚ
  vz : ℚ
  time : ℚ
  shards : List Shard
  env : EnvState

/-- Output events of one tick: calls to `onGameOver` and `onCollectShard`. -/
structure TickEvents where
  gameOverCalls : ℕ
  shardPickups : ℕ

def moveSpeed : ℚ := 3/5

/-- One unpaused `animate` tick. -/
def tick (inp : TickInput) (bobs r1s r2s : ℕ → ℚ) (st : SimState) : SimState × TickEvents :=
  if st.px^2 + st.pz^2 > GAME_OVER_RADIUS^2 then
    ({ st with time := st.time + 1/100 }, { gameOverCalls := 1, shardPickups := 0 })
  else
    let vx1 := lowPass (turnRate inp.handX) st.vx
    let vz1 := lowPass (speedZ inp.handSize) st.vz
    let px1 := st.px + vx1 * moveSpeed
    let pz1 := st.pz + vz1 * moveSpeed
    let shardsRes := shardPoolTick px1 pz1 bobs r1s r2s st.shards
    ({ px := px1, pz := pz1, vx := vx1, vz := vz1, time := st.time + 1/100,
       shards := shardsRes.1, env := envTick st.env (emotionTargets inp.emotion) },
     { gameOverCalls := 0, shardPickups := shardsRes.2 })

/-- `n` consecutive ticks with per-tick inputs and random/bob streams. -/
def runTicks (inps : ℕ → TickInput) (bobs r1s r2s : ℕ → ℕ → ℚ) :
    ℕ → SimState → SimState
  | 0, st => st
  | n+1, st => (tick (inps n) (bobs n) (r1s n) (r2s n)
      (runTicks inps bobs r1s r2s n st)).1

lemma runTicks_oob (inps : ℕ → TickInput) (bobs r1s r2s : ℕ → ℕ → ℚ) (st : SimState)
    (h : GAME_OVER_RADIUS^2 < st.px^2 + st.pz^2) (n : ℕ) :
    (runTicks inps bobs r1s r2s n st).px = st.px ∧
      (runTicks inps bobs r1s r2s n st).pz = st.pz := by
  induction n with
  | zero => exact ⟨rfl, rfl⟩
  | succ n ih =>
      have hoob : GAME_OVER_RADIUS^2 <
          (runTicks inps bobs r1s r2s n st).px^2 + (runTicks inps bobs r1s r2s n st).pz^2 := by
        rw [ih.1, ih.2]; exact h
      rw [runTicks, tick, if_pos hoob]
      exact ih

/-- Claim C1: a tick entered with the player's horizontal distance from the
origin at most the game-over radius fires no game-over signal (and runs the
position update); a tick entered with distance beyond the radius makes exactly
one `onGameOver` call, terminates early (no shard pickups, and position,
velocity, shards and environment are all left untouched), and from then on no
tick ever updates the position again, whatever the later inputs, until the
state is externally reset.  Distances are compared squared, since
`Math.sqrt e > 8000` iff `e > 8000^2`. -/
theorem tick_gameOver_boundary (inp : TickInput) (bobs r1s r2s : ℕ → ℚ) (st : SimState) :
    (st.px^2 + st.pz^2 ≤ GAME_OVER_RADIUS^2 →
      (tick inp bobs r1s r2s st).2.gameOverCalls = 0 ∧
      (tick inp bobs r1s r2s st).1.px =
        st.px + lowPass (turnRate inp.handX) st.vx * moveSpeed ∧
      (tick inp bobs r1s r2s st).1.pz =
        st.pz + lowPass (speedZ inp.handSize) st.vz * moveSpeed) ∧
    (st.px^2 + st.pz^2 > GAME_OVER_RADIUS^2 →
      (tick inp bobs r1s r2s st).2.gameOverCalls = 1 ∧
      (tick inp bobs r1s r2s st).2.shardPickups = 0 ∧
      (tick inp bobs r1s r2s st).1.px = st.px ∧
      (tick inp bobs r1s r2s st).1.pz = st.pz ∧
      (tick inp bobs r1s r2s st).1.vx = st.vx ∧
      (tick inp bobs r1s r2s st).1.vz = st.vz ∧
      (tick inp bobs r1s r2s st).1.shards = st.shards ∧
      (tick inp bobs r1s r2s st).1.env = st.env ∧
      (∀ (inps : ℕ → TickInput) (bobs2 r1s2 r2s2 : ℕ → ℕ → ℚ) (n : ℕ),
        (runTicks inps bobs2 r1s2 r2s2 n st).px = st.px ∧
        (runTicks inps bobs2 r1s2 r2s2 n st).pz = st.pz)) := by
  constructor
  · intro h
    rw [tick, if_neg (not_lt.mpr h)]
    exact ⟨rfl, rfl, rfl⟩
  · intro h
    rw [tick, if_pos h]
    exact ⟨rfl, rfl, rfl, rfl, rfl, rfl, rfl, rfl,
      fun inps bobs2 r1s2 r2s2 n => runTicks_oob inps bobs2 r1s2 r2s2 st h n⟩

/-- Witness for the C1 theorem: at the origin (distance 0 ≤ 8000) no game-over
call is made; at x = 9000 (distance > 8000) exactly one call is made and the
position is still x = 9000 after three further ticks. -/
theorem tick_gameOver_boundary_witness :
    (tick ⟨0, 12/100, 0, Emotion.CALM⟩ (fun _ => 5) (fun _ => 0) (fun _ => 0)
        ⟨0, 0, 0, 0, 0, [], emotionTargets Emotion.CALM⟩).2.gameOverCalls = 0 ∧
    (tick ⟨0, 12/100, 0, Emotion.CALM⟩ (fun _ => 5) (fun _ => 0) (fun _ => 0)
        ⟨9000, 0, 0, 0, 0, [], emotionTargets Emotion.CALM⟩).2.gameOverCalls = 1 ∧
    (runTicks (fun _ => ⟨0, 12/100, 0, Emotion.CALM⟩) (fun _ _ => 5) (fun _ _ => 0)
        (fun _ _ => 0) 3 ⟨9000, 0, 0, 0, 0, [], emotionTargets Emotion.CALM⟩).px = 9000 := by
  have h0 := tick_gameOver_boundary ⟨0, 12/100, 0, Emotion.CALM⟩
    (fun _ => 5) (fun _ => 0) (fun _ => 0) ⟨0, 0, 0, 0, 0, [], emotionTargets Emotion.CALM⟩
  have h9 := tick_gameOver_boundary ⟨0, 12/100, 0, Emotion.CALM⟩
    (fun _ => 5) (fun _ => 0) (fun _ => 0) ⟨9000, 0, 0, 0, 0, [], emotionTargets Emotion.CALM⟩
  have hin : ((0:ℚ)^2 + (0:ℚ)^2 ≤ GAME_OVER_RADIUS^2) := by norm_num [GAME_OVER_RADIUS]
  have hout : ((9000:ℚ)^2 + (0:ℚ)^2 > GAME_OVER_RADIUS^2) := by norm_num [GAME_OVER_RADIUS]
  refine ⟨(h0.1 hin).1, (h9.2 hout).1, ?_⟩
  exact ((h9.2 hout).2.2.2.2.2.2.2.2 (fun _ => ⟨0, 12/100, 0, Emotion.CALM⟩)
    (fun _ _ => 5) (fun _ _ => 0) (fun _ _ => 0) 3).1

/-! ### Procedural field generator (chunk grid and instance batches)

Source:
  const halfGrid = TOTAL_CHUNKS_SIDE / 2;               // 60 / 2 = 30
  for (let x = -halfGrid; x < halfGrid; x++)
    for (let z = -halfGrid; z < halfGrid; z++) {
      lod.position.set(x * CHUNK_SIZE + CHUNK_SIZE/2, 0, z * CHUNK_SIZE + CHUNK_SIZE/2);
      const meshHigh = new InstancedMesh(grassGeoHigh, grassMat, INSTANCES_PER_CHUNK);
      const meshLow  = new InstancedMesh(grassGeoLow,  grassMat, INSTANCES_PER_CHUNK);
      for (let j = 0; j < INSTANCES_PER_CHUNK; j++) {
        const px = (Math.random() - 0.5) * CHUNK_SIZE;
        const pz = (Math.random() - 0.5) * CHUNK_SIZE;
        dummy.rotation.y = Math.random() * Math.PI;
        const scale = 0.8 + Math.random() * 0.7;
        ... meshHigh.setMatrixAt(j, dummy.matrix); meshLow.setMatrixAt(j, dummy.matrix);
      }
      lod.addLevel(meshHigh, 0); lod.addLevel(meshLow, 2000);
    }
The chunk with grid coordinates (i, j) therefore owns the half-open square
[i*CHUNK_SIZE, (i+1)*CHUNK_SIZE) x [j*CHUNK_SIZE, (j+1)*CHUNK_SIZE), and the
grid indices run over [-30, 30).  `grassGeoHigh` is a plane with 3 height
segments, `grassGeoLow` one with 1; both detail meshes receive the same
per-instance matrix at every slot.  The yaw `Math.random() * PI` is stored as
its random multiplier (units of pi radians), keeping the embedding rational.
-/

/-- Half the number of chunks per side, `TOTAL_CHUNKS_SIDE / 2 = 30`. -/
def halfGrid : ℤ := 30

/-- Membership of a ground point in the chunk with grid coordinates (i, j). -/
def inChunk (i j : ℤ) (p : ℚ × ℚ) : Prop :=
  (i : ℚ) * CHUNK_SIZE ≤ p.1 ∧ p.1 < ((i : ℚ) + 1) * CHUNK_SIZE ∧
  (j : ℚ) * CHUNK_SIZE ≤ p.2 ∧ p.2 < ((j : ℚ) + 1) * CHUNK_SIZE

/-- One vegetation instance transform: local position in the chunk, yaw (in
units of pi radians) and uniform scale. -/
structure GrassTransform where
  px : ℚ
  pz : ℚ
  yawPi : ℚ
  scale : ℚ
deriving DecidableEq

/-- The per-instance transforms of one chunk, drawn in source order
(px, pz, yaw, scale use draws 4j, 4j+1, 4j+2, 4j+3). -/
def genInstances (rnd : ℕ → ℚ) : List GrassTransform :=
  (List.range INSTANCES_PER_CHUNK).map fun j =>
    { px := (rnd (4*j) - 1/2) * CHUNK_SIZE
      pz := (rnd (4*j+1) - 1/2) * CHUNK_SIZE
      yawPi := rnd (4*j+2)
      scale := 8/10 + rnd (4*j+3) * 7/10 }

/-- One detail-level instance batch: geometry tessellation (height segments of
the blade plane) plus the per-instance transforms. -/
structure GrassBatch where
  segments : ℕ
  transforms : List GrassTransform
deriving DecidableEq

/-- The two detail batches of one chunk: the high level uses the 3-segment
geometry, the low level the 1-segment geometry, and both get the same matrix
at every instance slot. -/
def genChunk (rnd : ℕ → ℚ) : GrassBatch × GrassBatch :=
  (⟨3, genInstances rnd⟩, ⟨1, genInstances rnd⟩)

lemma chunk_coord_unique (x : ℚ) (h0 : -WORLD_EXTENT ≤ x) (h1 : x < WORLD_EXTENT) :
    ((-halfGrid ≤ ⌊x / CHUNK_SIZE⌋ ∧ ⌊x / CHUNK_SIZE⌋ < halfGrid) ∧
     ((⌊x / CHUNK_SIZE⌋ : ℚ) * CHUNK_SIZE ≤ x ∧ x < ((⌊x / CHUNK_SIZE⌋ : ℚ) + 1) * CHUNK_SIZE)) ∧
    ∀ i : ℤ, (i : ℚ) * CHUNK_SIZE ≤ x → x < ((i : ℚ) + 1) * CHUNK_SIZE →
      i = ⌊x / CHUNK_SIZE⌋ := by
  rw [WORLD_EXTENT] at h0 h1
  simp only [CHUNK_SIZE, halfGrid]
  have hfl := Int.floor_le (x / 2000)
  have hfu := Int.lt_floor_add_one (x / 2000)
  refine ⟨⟨⟨?_, ?_⟩, ?_, ?_⟩, ?_⟩
  · rw [Int.le_floor]
    push_cast
    linarith
  · rw [Int.floor_lt]
    push_cast
    linarith
  · linarith
  · linarith
  · intro i hi1 hi2
    have hle : (i : ℚ) ≤ x / 2000 := by linarith
    have hlt : x / 2000 < (i : ℚ) + 1 := by linarith
    refine (Int.floor_eq_iff.mpr ⟨hle, ?_⟩).symm
    exact hlt

/-- Claim C8: every point of the fixed square world extent
[-WORLD_EXTENT, WORLD_EXTENT) x [-WORLD_EXTENT, WORLD_EXTENT) belongs to
exactly one chunk of the uniform [-30, 30) x [-30, 30) grid (the grid tiles
the extent with no gaps or overlaps); and for any random stream, each chunk's
two detail batches hold exactly INSTANCES_PER_CHUNK = 5000 instances with
identical per-instance transforms, differing only in geometry tessellation
(3 height segments versus 1). -/
theorem chunk_grid_tiles_batches_match (p : ℚ × ℚ)
    (hx0 : -WORLD_EXTENT ≤ p.1) (hx1 : p.1 < WORLD_EXTENT)
    (hz0 : -WORLD_EXTENT ≤ p.2) (hz1 : p.2 < WORLD_EXTENT) :
    (∃! ij : ℤ × ℤ,
      ((-halfGrid ≤ ij.1 ∧ ij.1 < halfGrid) ∧ (-halfGrid ≤ ij.2 ∧ ij.2 < halfGrid)) ∧
      inChunk ij.1 ij.2 p) ∧
    (∀ rnd : ℕ → ℚ,
      (genChunk rnd).1.transforms.length = INSTANCES_PER_CHUNK ∧
      (genChunk rnd).2.transforms.length = INSTANCES_PER_CHUNK ∧
      (genChunk rnd).1.transforms = (genChunk rnd).2.transforms ∧
      (genChunk rnd).1.segments ≠ (genChunk rnd).2.segments) := by
  obtain ⟨⟨hxb, hxin⟩, hxuniq⟩ := chunk_coord_unique p.1 hx0 hx1
  obtain ⟨⟨hzb, hzin⟩, hzuniq⟩ := chunk_coord_unique p.2 hz0 hz1
  constructor
  · refine ⟨(⌊p.1 / CHUNK_SIZE⌋, ⌊p.2 / CHUNK_SIZE⌋),
      ⟨⟨hxb, hzb⟩, hxin.1, hxin.2, hzin.1, hzin.2⟩, ?_⟩
    rintro ⟨i, j⟩ ⟨_, hin1, hin2, hin3, hin4⟩
    rw [Prod.mk.injEq]
    exact ⟨hxuniq i hin1 hin2, hzuniq j hin3 hin4⟩
  · intro rnd
    refine ⟨?_, ?_, rfl, by norm_num [genChunk]⟩ <;>
      simp [genChunk, genInstances]

/-- Witness for the C8 theorem at the world origin. -/
theorem chunk_grid_tiles_batches_match_witness :
    (-WORLD_EXTENT ≤ (0:ℚ) ∧ (0:ℚ) < WORLD_EXTENT) ∧
    (∃! ij : ℤ × ℤ,
      ((-halfGrid ≤ ij.1 ∧ ij.1 < halfGrid) ∧ (-halfGrid ≤ ij.2 ∧ ij.2 < halfGrid)) ∧
      inChunk ij.1 ij.2 ((0:ℚ), (0:ℚ))) := by
  have hb : -WORLD_EXTENT ≤ (0:ℚ) ∧ (0:ℚ) < WORLD_EXTENT := by norm_num [WORLD_EXTENT]
  exact ⟨hb, (chunk_grid_tiles_batches_match ((0:ℚ), (0:ℚ)) hb.1 hb.2 hb.1 hb.2).1⟩

/-! ### Shop state (App.tsx): store items, equip and purchase

Source:
  const handleEquip = (item) => {
    if (!item.unlocked) return;
    setStoreItems(prev => prev.map(i => {
      if (item.type === 'skin' && i.type === 'skin')
        return { ...i, active: i.id === item.id };
      if (item.type === 'companion' && i.type === 'companion')
        return { ...i, active: i.id === item.id };
      return i;
    }));
  };
  const handlePurchase = (item) => {
    if (xp >= item.cost && !item.unlocked) {
      setXp(prev => prev - item.cost);
      setStoreItems(prev => prev.map(i => i.id === item.id ? { ...i, unlocked: true } : i));
      ...
    }
  };
-/

inductive ItemType where
  | skin
  | companion
deriving DecidableEq

structure StoreItem where
  id : String
  name : String
  type : ItemType
  cost : ℕ
  unlocked : Bool
  active : Bool
  description : String
deriving DecidableEq

/-- The initial store data of App.tsx. -/
def INITIAL_STORE_ITEMS : List StoreItem :=
  [ { id := "skin_default", name := "光之球", type := ItemType.skin, cost := 0,
      unlocked := true, active := true, description := "最纯粹的光芒形态。" },
    { id := "skin_cube", name := "量子立方", type := ItemType.skin, cost := 50,
      unlocked := false, active := false, description := "来自数字维度的几何体。" },
    { id := "skin_tetra", name := "以太棱镜", type := ItemType.skin, cost := 120,
      unlocked := false, active := false, description := "能够折射情绪的古代遗物。" },
    { id := "comp_butterfly", name := "蓝闪蝶", type := ItemType.companion, cost := 0,
      unlocked := true, active := true, description := "象征希望的忠实伙伴。" },
    { id := "comp_firefly", name := "余烬萤火", type := ItemType.companion, cost := 80,
      unlocked := false, active := false, description := "曾在风暴中幸存的微光。" },
    { id := "comp_spirit", name := "森林之灵", type := ItemType.companion, cost := 200,
      unlocked := false, active := false, description := "古老草甸的守护者。" } ]

/-- The per-item update `handleEquip` maps over the store. -/
def equipMap (item i : StoreItem) : StoreItem :=
  if item.type = ItemType.skin ∧ i.type = ItemType.skin then
    { i with active := i.id == item.id }
  else if item.type = ItemType.companion ∧ i.type = ItemType.companion then
    { i with active := i.id == item.id }
  else i

/-- `handleEquip`: a locked item is ignored; otherwise every item of the
equipped item's type gets `active := (i.id === item.id)` and items of the
other type are returned unchanged. -/
def handleEquip (item : StoreItem) (items : List StoreItem) : List StoreItem :=
  if !item.unlocked then items else items.map (equipMap item)

/-- The per-item update `handlePurchase` maps over the store. -/
def purchMap (item i : StoreItem) : StoreItem :=
  if i.id == item.id then { i with unlocked := true } else i

/-- `handlePurchase`: guarded by affordability and the item being locked;
it only flips `unlocked` on the matching id. -/
def handlePurchase (item : StoreItem) (xp : ℕ) (items : List StoreItem) : List StoreItem :=
  if item.cost ≤ xp ∧ item.unlocked = false then items.map (purchMap item) else items

/-- Shop states reachable from the initial store through the two mutators
(the UI always passes an element of the current store). -/
inductive ShopReachable : List StoreItem → Prop where
  | init : ShopReachable INITIAL_STORE_ITEMS
  | equip (s : List StoreItem) (item : StoreItem) :
      ShopReachable s → item ∈ s → ShopReachable (handleEquip item s)
  | purchase (s : List StoreItem) (item : StoreItem) (xp : ℕ) :
      ShopReachable s → item ∈ s → ShopReachable (handlePurchase item xp s)

/-- Number of active items of a given type. -/
def countActive (t : ItemType) (s : List StoreItem) : ℕ :=
  s.countP fun i => decide (i.type = t) && i.active

lemma countP_congr_mem {α} (p q : α → Bool) (l : List α) (h : ∀ a ∈ l, p a = q a) :
    l.countP p = l.countP q := by
  induction l with
  | nil => rfl
  | cons a l ih =>
      rw [List.countP_cons, List.countP_cons, h a (List.mem_cons_self a l),
        ih (fun b hb => h b (List.mem_cons_of_mem a hb))]

lemma equipMap_of_type_eq {item i : StoreItem} (h : i.type = item.type) :
    equipMap item i = { i with active := i.id == item.id } := by
  cases ht : item.type <;> rw [ht] at h <;> simp [equipMap, ht, h]

lemma equipMap_of_type_ne {item i : StoreItem} (h : i.type ≠ item.type) :
    equipMap item i = i := by
  cases ht : item.type <;> rw [ht] at h <;> simp [equipMap, ht, h]

lemma equipMap_id (item i : StoreItem) : (equipMap item i).id = i.id := by
  by_cases h : i.type = item.type
  · rw [equipMap_of_type_eq h]
  · rw [equipMap_of_type_ne h]

lemma equipMap_type (item i : StoreItem) : (equipMap item i).type = i.type := by
  by_cases h : i.type = item.type
  · rw [equipMap_of_type_eq h]
  · rw [equipMap_of_type_ne h]

lemma equipMap_idem (item i : StoreItem) :
    equipMap item (equipMap item i) = equipMap item i := by
  by_cases h : i.type = item.type
  · rw [equipMap_of_type_eq h,
      equipMap_of_type_eq (show ({ i with active := i.id == item.id } : StoreItem).type
        = item.type from h)]
  · rw [equipMap_of_type_ne h, equipMap_of_type_ne h]

lemma handleEquip_of_locked {item : StoreItem} (h : item.unlocked = false)
    (s : List StoreItem) : handleEquip item s = s := by
  rw [handleEquip, if_pos (by rw [h]; rfl)]

lemma handleEquip_of_unlocked {item : StoreItem} (h : item.unlocked = true)
    (s : List StoreItem) : handleEquip item s = s.map (equipMap item) := by
  rw [handleEquip, if_neg (by rw [h]; simp)]

lemma handleEquip_map_id (item : StoreItem) (s : List StoreItem) :
    (handleEquip item s).map StoreItem.id = s.map StoreItem.id := by
  rw [handleEquip]
  split
  · rfl
  · rw [List.map_map]
    exact List.map_congr_left fun i _ => equipMap_id item i

lemma purchMap_id (item i : StoreItem) : (purchMap item i).id = i.id := by
  rw [purchMap]; split <;> rfl

lemma purchMap_type (item i : StoreItem) : (purchMap item i).type = i.type := by
  rw [purchMap]; split <;> rfl

lemma purchMap_active (item i : StoreItem) : (purchMap item i).active = i.active := by
  rw [purchMap]; split <;> rfl

lemma handlePurchase_map_id (item : StoreItem) (xp : ℕ) (s : List StoreItem) :
    (handlePurchase item xp s).map StoreItem.id = s.map StoreItem.id := by
  rw [handlePurchase]
  split
  · rw [List.map_map]
    exact List.map_congr_left fun i _ => purchMap_id item i
  · rfl

lemma countActive_purchase (t : ItemType) (item : StoreItem) (xp : ℕ) (s : List StoreItem) :
    countActive t (handlePurchase item xp s) = countActive t s := by
  rw [handlePurchase]
  split
  · rw [countActive, countActive, List.countP_map]
    exact countP_congr_mem _ _ s fun i _ => by
      show (decide ((purchMap item i).type = t) && (purchMap item i).active) = _
      rw [purchMap_type, purchMap_active]
  · rfl

lemma countActive_equip_ne {t : ItemType} {item : StoreItem} (h : t ≠ item.type)
    (s : List StoreItem) : countActive t (handleEquip item s) = countActive t s := by
  rw [handleEquip]
  split
  · rfl
  · rw [countActive, countActive, List.countP_map]
    refine countP_congr_mem _ _ s fun i _ => ?_
    show (decide ((equipMap item i).type = t) && (equipMap item i).active) = _
    by_cases hty : i.type = item.type
    · have hnt : decide (i.type = t) = false :=
        decide_eq_false fun hh => h (hh.symm.trans hty)
      rw [equipMap_of_type_eq hty]
      show (decide (i.type = t) && (i.id == item.id)) = (decide (i.type = t) && i.active)
      rw [hnt, Bool.false_and, Bool.false_and]
    · rw [equipMap_of_type_ne hty]

lemma countActive_equip_eq {item : StoreItem} (s : List StoreItem) (hmem : item ∈ s)
    (hnd : (s.map StoreItem.id).Nodup) (hunl : item.unlocked = true) :
    countActive item.type (handleEquip item s) = 1 := by
  rw [handleEquip_of_unlocked hunl, countActive, List.countP_map]
  have hstep : s.countP (fun i => decide ((equipMap item i).type = item.type)
      && (equipMap item i).active) = s.countP (fun i => i.id == item.id) := by
    refine countP_congr_mem _ _ s fun i hi => ?_
    by_cases hty : i.type = item.type
    · rw [equipMap_of_type_eq hty]
      show (decide (i.type = item.type) && (i.id == item.id)) = (i.id == item.id)
      rw [decide_eq_true hty, Bool.true_and]
    · rw [equipMap_of_type_ne hty]
      show (decide (i.type = item.type) && i.active) = (i.id == item.id)
      have h1 : decide (i.type = item.type) = false := decide_eq_false hty
      have h2 : (i.id == item.id) = false := beq_eq_false_iff_ne.mpr fun heq =>
        hty (congrArg StoreItem.type (List.inj_on_of_nodup_map hnd hi hmem heq))
      rw [h1, h2, Bool.false_and]
  have hcount : s.countP (fun i => i.id == item.id) = 1 := by
    have h1 : (s.map StoreItem.id).countP (fun x => x == item.id)
        = s.countP (fun i => i.id == item.id) := List.countP_map _ _ _
    have h2 : (s.map StoreItem.id).count item.id = 1 :=
      List.count_eq_one_of_mem hnd (List.mem_map_of_mem StoreItem.id hmem)
    rw [List.count_eq_countP] at h2
    rw [← h1, h2]
  show s.countP (fun i => decide ((equipMap item i).type = item.type)
    && (equipMap item i).active) = 1
  rw [hstep, hcount]

/-- The shop invariant: distinct ids and exactly one active item per type. -/
lemma shop_invariant (s : List StoreItem) (h : ShopReachable s) :
    (s.map StoreItem.id).Nodup ∧
      countActive ItemType.skin s = 1 ∧ countActive ItemType.companion s = 1 := by
  induction h with
  | init => refine ⟨?_, ?_, ?_⟩ <;> decide
  | equip s item hs hmem ih =>
      refine ⟨by rw [handleEquip_map_id]; exact ih.1, ?_, ?_⟩
      · by_cases ht : ItemType.skin = item.type
        · rw [ht]; cases hu : item.unlocked
          · rw [handleEquip_of_locked hu]; rw [← ht]; exact ih.2.1
          · exact countActive_equip_eq s hmem ih.1 hu
        · rw [countActive_equip_ne ht]; exact ih.2.1
      · by_cases ht : ItemType.companion = item.type
        · rw [ht]; cases hu : item.unlocked
          · rw [handleEquip_of_locked hu]; rw [← ht]; exact ih.2.2
          · exact countActive_equip_eq s hmem ih.1 hu
        · rw [countActive_equip_ne ht]; exact ih.2.2
  | purchase s item xp hs hmem ih =>
      exact ⟨by rw [handlePurchase_map_id]; exact ih.1,
        by rw [countActive_purchase]; exact ih.2.1,
        by rw [countActive_purchase]; exact ih.2.2⟩

/-- Claim C10: the initial store has exactly one active skin and one active
companion; every reachable shop state keeps exactly one active item per type,
so the `find?`-based `activeSkin` / `activeCompanion` selectors always succeed;
and an equip of an unlocked item makes exactly the matching-id items of its
type active while items of the other type pass through unchanged. -/
theorem shop_exactly_one_active :
    (countActive ItemType.skin INITIAL_STORE_ITEMS = 1 ∧
      countActive ItemType.companion INITIAL_STORE_ITEMS = 1) ∧
    (∀ s : List StoreItem, ShopReachable s →
      countActive ItemType.skin s = 1 ∧ countActive ItemType.companion s = 1 ∧
      (s.find? fun i => decide (i.type = ItemType.skin) && i.active).isSome = true ∧
      (s.find? fun i => decide (i.type = ItemType.companion) && i.active).isSome = true) ∧
    (∀ (item : StoreItem) (s : List StoreItem), item.unlocked = true →
      (∀ i' ∈ handleEquip item s, i'.type = item.type → i'.active = (i'.id == item.id)) ∧
      (∀ i ∈ s, i.type ≠ item.type → i ∈ handleEquip item s)) := by
  refine ⟨⟨by decide, by decide⟩, fun s hs => ?_, fun item s hunl => ⟨?_, ?_⟩⟩
  · obtain ⟨hnd, h1, h2⟩ := shop_invariant s hs
    have h1' := h1
    have h2' := h2
    simp only [countActive] at h1' h2'
    refine ⟨h1, h2, ?_, ?_⟩ <;>
    · rw [List.find?_isSome]
      exact List.countP_pos_iff.mp (by omega)
  · intro i' hi' hty
    rw [handleEquip_of_unlocked hunl] at hi'
    obtain ⟨i, hi, rfl⟩ := List.mem_map.mp hi'
    have hity : i.type = item.type := by rw [← equipMap_type item i]; exact hty
    rw [equipMap_of_type_eq hity]
  · intro i hi hty
    rw [handleEquip_of_unlocked hunl]
    have : equipMap item i = i := equipMap_of_type_ne fun hh => hty hh
    rw [← this]
    exact List.mem_map_of_mem _ hi

/-- Witness for the C10 theorem: the initial store is reachable, has the
invariant, and equipping the (unlocked, active) default skin keeps it the only
active skin. -/
theorem shop_exactly_one_active_witness :
    ShopReachable INITIAL_STORE_ITEMS ∧
    countActive ItemType.skin INITIAL_STORE_ITEMS = 1 ∧
    (INITIAL_STORE_ITEMS.find? fun i =>
      decide (i.type = ItemType.skin) && i.active).isSome = true := by
  have h := (shop_exactly_one_active).2.1 INITIAL_STORE_ITEMS ShopReachable.init
  exact ⟨ShopReachable.init, h.1, h.2.2.1⟩

/-! ### Player and companion visual subtrees (updatePlayerMesh / updateCompanionMesh)

Source `updatePlayerMesh`: find the first child that is a Mesh, remove it, then
build the variant's mesh (`skin_cube` → box, `skin_tetra` → tetrahedron, any
other id → default sphere) and `add` it (appended at the end of the children).
The player group also holds a PointLight that is never removed.

Source `updateCompanionMesh`: remove ALL children in a loop, then add the
variant's children (`comp_firefly` → body mesh + light, `comp_spirit` → body
mesh + light, anything else → two wings + light), so the result depends only
on the variant.
-/

inductive PlayerMeshKind where
  | sphere
  | cube
  | tetra
deriving DecidableEq

/-- The switch in `updatePlayerMesh` (default branch collapses unknown ids). -/
def resolveSkin (id : String) : PlayerMeshKind :=
  if id = "skin_cube" then PlayerMeshKind.cube
  else if id = "skin_tetra" then PlayerMeshKind.tetra
  else PlayerMeshKind.sphere

/-- A child of the player group: the point light or a skin mesh. -/
inductive PlayerNode where
  | light
  | mesh (kind : PlayerMeshKind)
deriving DecidableEq

def isMeshNode : PlayerNode → Bool
  | PlayerNode.light => false
  | PlayerNode.mesh _ => true

/-- Remove the first child that is a Mesh (the `children.find` + `remove`);
the point light is not a Mesh and is kept. -/
def removeFirstMesh : List PlayerNode → List PlayerNode
  | [] => []
  | PlayerNode.light :: rest => PlayerNode.light :: removeFirstMesh rest
  | PlayerNode.mesh _ :: rest => rest

/-- `updatePlayerMesh`: drop the first mesh child, append the rebuilt one. -/
def updatePlayerMesh (skin : String) (g : List PlayerNode) : List PlayerNode :=
  removeFirstMesh g ++ [PlayerNode.mesh (resolveSkin skin)]

def meshCount (g : List PlayerNode) : ℕ := g.countP isMeshNode

/-- A child of the companion group. -/
inductive CompNode where
  | bodySphere
  | bodyDodeca
  | wingLeft
  | wingRight
  | pointLight (hex : ℕ)
deriving DecidableEq

/-- The children `updateCompanionMesh` builds for a variant id. -/
def companionChildren (t : String) : List CompNode :=
  if t = "comp_firefly" then [CompNode.bodySphere, CompNode.pointLight 0xffaa00]
  else if t = "comp_spirit" then [CompNode.bodyDodeca, CompNode.pointLight 0xccffff]
  else [CompNode.wingLeft, CompNode.wingRight, CompNode.pointLight 0x0088ff]

/-- `updateCompanionMesh`: remove every child, then add the variant's. -/
def updateCompanionMesh (t : String) (_g : List CompNode) : List CompNode :=
  companionChildren t

lemma removeFirstMesh_of_no_mesh {g : List PlayerNode} (h : meshCount g = 0) :
    removeFirstMesh g = g := by
  induction g with
  | nil => rfl
  | cons n rest ih =>
      cases n with
      | light =>
          simp [meshCount, List.countP_cons, isMeshNode] at h ih
          rw [removeFirstMesh, ih h]
      | mesh k =>
          simp [meshCount, List.countP_cons, isMeshNode] at h

lemma meshCount_removeFirstMesh {g : List PlayerNode} (h : meshCount g ≤ 1) :
    meshCount (removeFirstMesh g) = 0 := by
  induction g with
  | nil => rfl
  | cons n rest ih =>
      cases n with
      | light =>
          simp [meshCount, List.countP_cons, isMeshNode] at h ih ⊢
          rw [removeFirstMesh]
          simp [List.countP_cons, isMeshNode]
          exact ih h
      | mesh k =>
          simp [meshCount, List.countP_cons, isMeshNode] at h
          rw [removeFirstMesh]
          simp [meshCount]
          exact fun a ha => h a ha

lemma removeFirstMesh_append_mesh {g : List PlayerNode} (h : meshCount g = 0)
    (k : PlayerMeshKind) : removeFirstMesh (g ++ [PlayerNode.mesh k]) = g := by
  induction g with
  | nil => rfl
  | cons n rest ih =>
      cases n with
      | light =>
          simp [meshCount, List.countP_cons, isMeshNode] at h ih
          rw [List.cons_append, removeFirstMesh, ih h]
      | mesh k2 =>
          simp [meshCount, List.countP_cons, isMeshNode] at h

/-- Claim C9: re-selecting the already-active cosmetic variant is idempotent.
(i) `handleEquip` of an unlocked item whose id is already exactly the active
one of its type leaves the shop state unchanged; (ii) `handleEquip` is
idempotent in general; (iii) `updatePlayerMesh` on a group with at most one
mesh child (every reachable group) leaves exactly one mesh child and applying
it again with the same skin reproduces the identical subtree, so no duplicate
meshes accumulate; (iv) `updateCompanionMesh` is idempotent and its result
depends only on the variant, never on the previous children, so no duplicate
companion children accumulate. -/
theorem cosmetic_reselect_idempotent :
    (∀ (item : StoreItem) (s : List StoreItem), item.unlocked = true →
      (∀ i ∈ s, i.type = item.type → i.active = (i.id == item.id)) →
      handleEquip item s = s) ∧
    (∀ (item : StoreItem) (s : List StoreItem),
      handleEquip item (handleEquip item s) = handleEquip item s) ∧
    (∀ (skin : String) (g : List PlayerNode), meshCount g ≤ 1 →
      meshCount (updatePlayerMesh skin g) = 1 ∧
      updatePlayerMesh skin (updatePlayerMesh skin g) = updatePlayerMesh skin g) ∧
    (∀ (t : String) (g g' : List CompNode),
      updateCompanionMesh t (updateCompanionMesh t g) = updateCompanionMesh t g ∧
      updateCompanionMesh t g = updateCompanionMesh t g') := by
  refine ⟨fun item s hunl hact => ?_, fun item s => ?_, fun skin g hg => ⟨?_, ?_⟩,
    fun t g g' => ⟨rfl, rfl⟩⟩
  · rw [handleEquip_of_unlocked hunl]
    have hfix : ∀ i ∈ s, equipMap item i = i := by
      intro i hi
      by_cases hty : i.type = item.type
      · rw [equipMap_of_type_eq hty, ← hact i hi hty]
      · exact equipMap_of_type_ne hty
    rw [List.map_congr_left hfix, List.map_id']
  · cases hu : item.unlocked
    · rw [handleEquip_of_locked hu, handleEquip_of_locked hu]
    · rw [handleEquip_of_unlocked hu, handleEquip_of_unlocked hu, List.map_map]
      exact List.map_congr_left fun i _ => equipMap_idem item i
  · rw [updatePlayerMesh, meshCount, List.countP_append]
    have h0 := meshCount_removeFirstMesh hg
    rw [meshCount] at h0
    rw [h0]
    rfl
  · rw [updatePlayerMesh, updatePlayerMesh,
      removeFirstMesh_append_mesh (meshCount_removeFirstMesh hg)]

/-- Witness for the C9 theorem: re-equipping the already-active default skin
leaves the initial store unchanged; a double equip equals a single one; the
player group [light, sphere mesh] keeps exactly one mesh and is reproduced
identically; the butterfly companion subtree is rebuilt identically. -/
theorem cosmetic_reselect_idempotent_witness :
    handleEquip
      { id := "skin_default", name := "光之球", type := ItemType.skin, cost := 0,
        unlocked := true, active := true, description := "最纯粹的光芒形态。" }
      INITIAL_STORE_ITEMS = INITIAL_STORE_ITEMS ∧
    meshCount (updatePlayerMesh "skin_default"
      [PlayerNode.light, PlayerNode.mesh PlayerMeshKind.sphere]) = 1 ∧
    updateCompanionMesh "comp_butterfly"
      (updateCompanionMesh "comp_butterfly" []) = updateCompanionMesh "comp_butterfly" [] := by
  have h := cosmetic_reselect_idempotent
  refine ⟨h.1 _ INITIAL_STORE_ITEMS rfl (by decide), ?_, (h.2.2.2 "comp_butterfly" [] []).1⟩
  exact (h.2.2.1 "skin_default" [PlayerNode.light, PlayerNode.mesh PlayerMeshKind.sphere]
    (by decide)).1

end Meadow
